import Mathlib

/-!
Verification of the gesture-control core of the jarvis repository.

The embedding mirrors the TypeScript source:
- `src/src/services/GestureRecognizer.ts` : `recognizeGesture`,
  `getFingerStates`, `recognizeGestureWithHold` (the hold debouncer).
- `src/src/App.tsx` : `GESTURE_ACTIONS`, `checkPinch`, `updatePointer`,
  `executeGestureAction`, and the per-frame logic of `predictWebcam`.
- `src/unnamed/part_001` (an App iteration with the command-mode state
  machine) : `COMMAND_MODE_ACTIONS`, `checkForceGrip`, `updatePointer`,
  the command-mode block of `predictWebcam`, and `updateDisplay`.

JavaScript numbers are embedded as rationals; `Math.hypot u v < c` and
`Math.hypot u v > Math.hypot w z` are embedded as the equivalent
comparisons of squared magnitudes (square root is strictly monotone on
nonnegative arguments, so the booleans coincide).  Array accesses
`landmarks[i]` are embedded with `List.get?`; a JavaScript access past
the end of the array yields `undefined` and the subsequent property read
throws, which the embedding renders as `Option.none` propagation.
-/

/-- One normalized hand landmark: `x`, `y` in [0,1], `z` a depth value. -/
structure Landmark where
  x : ℚ
  y : ℚ
  z : ℚ
deriving DecidableEq, Repr

/-- A screen-space point, as stored in `pointerPosRef` / `lastPointerRef`. -/
structure Point where
  x : ℚ
  y : ℚ
deriving DecidableEq, Repr

/-- The five per-finger open flags returned by
`GestureRecognizer.getFingerStates` (GestureRecognizer.ts lines 153-170). -/
structure FingerStates where
  thumb : Bool
  index : Bool
  middle : Bool
  ring : Bool
  pinky : Bool
deriving DecidableEq, Repr

/-- Landmark list access `landmarks[i]` followed by a property read, as a
partial operation: `none` models the TypeError thrown on `undefined.y`. -/
def lmGet (lm : List Landmark) (i : ℕ) : Option Landmark :=
  lm.get? i

/-- Total landmark access used where well-formedness (21 landmarks) is
guaranteed by hypothesis; agrees with `lmGet` on in-range indices. -/
def nthLm (lm : List Landmark) (i : ℕ) : Landmark :=
  (lmGet lm i).getD ⟨0, 0, 0⟩

/-- The finger-state computation of `GestureRecognizer.getFingerStates`
(GestureRecognizer.ts lines 153-170); `recognizeGesture` (lines 102-110)
computes the same five booleans from the same landmark indices:
`indexIsOpen = landmarks[8].y < landmarks[6].y` and so on for middle
(12,10), ring (16,14), pinky (20,18), and
`thumbIsOpen = |landmarks[4].x - wristX| > |landmarks[3].x - wristX|`
with `wristX = landmarks[0].x`.  Accesses are sequenced as in the source;
any out-of-range access aborts with `none` (the thrown TypeError). -/
def getFingerStatesOpt (lm : List Landmark) : Option FingerStates :=
  (lmGet lm 8).bind fun l8 =>
  (lmGet lm 6).bind fun l6 =>
  (lmGet lm 12).bind fun l12 =>
  (lmGet lm 10).bind fun l10 =>
  (lmGet lm 16).bind fun l16 =>
  (lmGet lm 14).bind fun l14 =>
  (lmGet lm 20).bind fun l20 =>
  (lmGet lm 18).bind fun l18 =>
  (lmGet lm 0).bind fun l0 =>
  (lmGet lm 4).bind fun l4 =>
  (lmGet lm 3).bind fun l3 =>
  some { thumb := decide (|l4.x - l0.x| > |l3.x - l0.x|)
         index := decide (l8.y < l6.y)
         middle := decide (l12.y < l10.y)
         ring := decide (l16.y < l14.y)
         pinky := decide (l20.y < l18.y) }

/-- The priority-ordered rule chain of `recognizeGesture`
(GestureRecognizer.ts lines 112-150), as a function of the five finger
flags.  `fingerCount` counts the open non-thumb fingers; the template
string FINGERS_$(fingerCount) is rendered by string concatenation. -/
def classifyFromBools (indexIsOpen middleIsOpen ringIsOpen pinkyIsOpen thumbIsOpen : Bool) :
    String :=
  let fingerCount := ([indexIsOpen, middleIsOpen, ringIsOpen, pinkyIsOpen].filter id).length
  if indexIsOpen ∧ middleIsOpen ∧ ¬ringIsOpen ∧ ¬pinkyIsOpen then "PEACE_SIGN"
  else if thumbIsOpen ∧ ¬indexIsOpen ∧ ¬middleIsOpen ∧ ¬ringIsOpen ∧ ¬pinkyIsOpen then "THUMBS_UP"
  else if indexIsOpen ∧ ¬middleIsOpen ∧ ¬ringIsOpen ∧ pinkyIsOpen then "ROCK_ON"
  else if fingerCount = 4 then "OPEN_PALM"
  else if fingerCount = 0 ∧ ¬thumbIsOpen then "CLOSED_FIST"
  else if indexIsOpen ∧ ¬middleIsOpen ∧ ¬ringIsOpen ∧ ¬pinkyIsOpen then "POINTING_UP"
  else if indexIsOpen ∧ middleIsOpen ∧ ringIsOpen ∧ ¬pinkyIsOpen then "THREE_FINGERS"
  else if fingerCount = 4 ∧ ¬thumbIsOpen then "FOUR_FINGERS"
  else if 1 ≤ fingerCount ∧ fingerCount ≤ 4 then "FINGERS_" ++ toString fingerCount
  else "UNKNOWN"

/-- `GestureRecognizer.recognizeGesture` (GestureRecognizer.ts lines
101-151): computes the five finger flags and applies the rule chain.
`none` models the TypeError thrown on an out-of-range landmark access. -/
def recognizeGestureOpt (lm : List Landmark) : Option String :=
  (getFingerStatesOpt lm).map fun fs =>
    classifyFromBools fs.index fs.middle fs.ring fs.pinky fs.thumb

/-- The spec's nine-label closed enumeration for `GestureLabel`. -/
def nineLabels : List String :=
  ["UNKNOWN", "CLOSED_FIST", "OPEN_PALM", "POINTING_UP", "PEACE_SIGN",
   "THREE_FINGERS", "FOUR_FINGERS", "THUMBS_UP", "ROCK_ON"]

/-- The labels `recognizeGesture` can actually produce: the nine of the
spec plus the FINGERS_n fallbacks of lines 146-148 (only counts 1-3
reach the fallback, since a count of 4 is caught by the OPEN_PALM rule). -/
def extendedLabels : List String :=
  nineLabels ++ ["FINGERS_1", "FINGERS_2", "FINGERS_3"]

/-- Squared planar distance between two landmarks; comparison of these
squares embeds comparison of the `Math.hypot` distances. -/
def sqDistLm (a b : Landmark) : ℚ :=
  (a.x - b.x) ^ 2 + (a.y - b.y) ^ 2

/-- Modelled from the spec: the spec's openness criterion for a non-thumb
finger, "the Euclidean distance from the wrist to that finger's fingertip
exceeds the Euclidean distance from the wrist to its proximal joint",
stated on squared distances. -/
def specEuclidOpen (wrist tip pip : Landmark) : Prop :=
  sqDistLm wrist pip < sqDistLm wrist tip

/-- Rotation of a landmark by 180 degrees about a center point in the
image plane (a rotation of the hand pose about the wrist when the center
is the wrist landmark). -/
def rot180 (c p : Landmark) : Landmark :=
  ⟨2 * c.x - p.x, 2 * c.y - p.y, p.z⟩

/-- The vertical coordinate read by the openness test, via total access. -/
def lmy (lm : List Landmark) (i : ℕ) : ℚ :=
  (nthLm lm i).y

-- Concrete poses used as witnesses and counterexamples.

/-- A 21-landmark pose of a hand pointing upward: only the index finger
is extended (tip above pip); the other fingertips sit level with their
pip joints and the thumb tip has no horizontal offset from the wrist. -/
def poseUp : List Landmark :=
  [⟨1/2, 4/5, 0⟩,        -- 0 wrist
   ⟨1/2, 3/4, 0⟩,        -- 1 thumb cmc
   ⟨1/2, 7/10, 0⟩,       -- 2 thumb mcp
   ⟨1/2, 7/10, 0⟩,       -- 3 thumb ip
   ⟨1/2, 3/5, 0⟩,        -- 4 thumb tip
   ⟨1/2, 3/5, 0⟩,        -- 5 index mcp
   ⟨1/2, 1/2, 0⟩,        -- 6 index pip
   ⟨1/2, 2/5, 0⟩,        -- 7 index dip
   ⟨1/2, 1/5, 0⟩,        -- 8 index tip
   ⟨3/5, 3/5, 0⟩,        -- 9 middle mcp
   ⟨3/5, 1/2, 0⟩,        -- 10 middle pip
   ⟨3/5, 1/2, 0⟩,        -- 11 middle dip
   ⟨3/5, 1/2, 0⟩,        -- 12 middle tip
   ⟨2/5, 3/5, 0⟩,        -- 13 ring mcp
   ⟨2/5, 1/2, 0⟩,        -- 14 ring pip
   ⟨2/5, 1/2, 0⟩,        -- 15 ring dip
   ⟨2/5, 1/2, 0⟩,        -- 16 ring tip
   ⟨3/10, 3/5, 0⟩,       -- 17 pinky mcp
   ⟨3/10, 1/2, 0⟩,       -- 18 pinky pip
   ⟨3/10, 1/2, 0⟩,       -- 19 pinky dip
   ⟨3/10, 1/2, 0⟩]       -- 20 pinky tip

/-- `poseUp` rotated 180 degrees about its wrist: the same hand pointing
downward.  The index tip is still Euclidean-farther from the wrist than
the index pip, but now lies below it. -/
def poseDown : List Landmark :=
  poseUp.map (rot180 (nthLm poseUp 0))

/-- A 21-landmark pose with only the middle finger extended; every
classifier rule falls through to the FINGERS_n fallback. -/
def poseMid : List Landmark :=
  [⟨1/2, 4/5, 0⟩,
   ⟨1/2, 3/4, 0⟩,
   ⟨1/2, 7/10, 0⟩,
   ⟨1/2, 7/10, 0⟩,
   ⟨1/2, 3/5, 0⟩,
   ⟨1/2, 3/5, 0⟩,
   ⟨1/2, 1/2, 0⟩,
   ⟨1/2, 1/2, 0⟩,
   ⟨1/2, 1/2, 0⟩,        -- index tip level with pip: closed
   ⟨3/5, 3/5, 0⟩,
   ⟨3/5, 1/2, 0⟩,
   ⟨3/5, 2/5, 0⟩,
   ⟨3/5, 1/5, 0⟩,        -- middle tip above pip: open
   ⟨2/5, 3/5, 0⟩,
   ⟨2/5, 1/2, 0⟩,
   ⟨2/5, 1/2, 0⟩,
   ⟨2/5, 1/2, 0⟩,
   ⟨3/10, 3/5, 0⟩,
   ⟨3/10, 1/2, 0⟩,
   ⟨3/10, 1/2, 0⟩,
   ⟨3/10, 1/2, 0⟩]

/-! ### HoldDebouncer: `recognizeGestureWithHold` (GestureRecognizer.ts 84-99) -/

/-- The cross-call fields of `GestureRecognizer` used by
`recognizeGestureWithHold`: `_currentGesture`, `_gestureStartTime`,
`_confirmedGesture`.  Times (`performance.now()` values, milliseconds)
are rationals. -/
structure DebState where
  currentGesture : String
  gestureStartTime : ℚ
  confirmedGesture : String
deriving DecidableEq, Repr

/-- The initial field values of `GestureRecognizer` (lines 13-15). -/
def debInit : DebState :=
  { currentGesture := "UNKNOWN", gestureStartTime := 0, confirmedGesture := "UNKNOWN" }

/-- One call of `recognizeGestureWithHold` with the raw gesture already
computed (lines 86-98): if the raw label differs from the stored one,
restart the hold timer and return the previous confirmed label; else if
the label has been held for at least `HOLD_THRESHOLD_MS = 300`, confirm
it; return the confirmed label. -/
def debStep (s : DebState) (rawGesture : String) (now : ℚ) : DebState × String :=
  if rawGesture ≠ s.currentGesture then
    ({ s with currentGesture := rawGesture, gestureStartTime := now }, s.confirmedGesture)
  else if 300 ≤ now - s.gestureStartTime then
    let s' := { s with confirmedGesture := rawGesture }
    (s', s'.confirmedGesture)
  else
    (s, s.confirmedGesture)

/-- A contiguous run of frames whose raw label is constantly `g`, at the
given timestamps: the state after the run and the returned confirmed
labels, one per frame. -/
def debRun (s : DebState) (g : String) : List ℚ → DebState × List String
  | [] => (s, [])
  | t :: ts =>
      let (s', o) := debStep s g t
      let (s'', os) := debRun s' g ts
      (s'', o :: os)

/-- Number of changes in a sequence of labels, relative to a preceding
value: adjacent unequal pairs, the initial value included. -/
def countChanges : String → List String → ℕ
  | _, [] => 0
  | prev, o :: os => (if o ≠ prev then 1 else 0) + countChanges o os

/-! ### ActionDispatcher: `GESTURE_ACTIONS` and `executeGestureAction`
(App.tsx 34-41 and 208-235) -/

/-- One entry of the gesture-to-action table. -/
structure GestureAction where
  action : String
  label : String
  app : Option String
deriving DecidableEq, Repr

/-- The `GESTURE_ACTIONS` table of App.tsx lines 34-41. -/
def GESTURE_ACTIONS : List (String × GestureAction) :=
  [("PEACE_SIGN", ⟨"screenshot", "SCREENSHOT", none⟩),
   ("POINTING_UP", ⟨"launch", "CHROME", some "chrome"⟩),
   ("THREE_FINGERS", ⟨"launch", "VS CODE", some "code"⟩),
   ("FOUR_FINGERS", ⟨"launch", "SLACK", some "slack"⟩),
   ("THUMBS_UP", ⟨"launch", "EXPLORER", some "explorer"⟩),
   ("ROCK_ON", ⟨"launch", "TERMINAL", some "terminal"⟩)]

/-- `executeGestureAction` (App.tsx 208-235), restricted to its effect on
`lastActionTimeRef` and whether an action is dispatched: within
`ACTION_COOLDOWN_MS = 2000` of the last accepted dispatch the call
returns early (state unchanged, nothing dispatched); an unmapped gesture
also returns early; otherwise the timestamp is recorded and the action
proceeds.  Returns (new `lastActionTime`, dispatched). -/
def executeGestureAction (lastActionTime : ℚ) (gesture : String) (now : ℚ) : ℚ × Bool :=
  if now - lastActionTime < 2000 then (lastActionTime, false)
  else
    match GESTURE_ACTIONS.lookup gesture with
    | none => (lastActionTime, false)
    | some _ => (now, true)

/-! ### PointerProjector: `checkPinch` and `updatePointer` (App.tsx
115-149), `checkForceGrip` and `updatePointer` (part_001 139-200) -/

/-- `checkPinch` (App.tsx 115-120): thumb tip and index tip closer than
`PINCH_THRESHOLD = 0.06`; `Math.hypot dx dy < 0.06` is embedded as the
equivalent comparison of squares. -/
def checkPinch (lm : List Landmark) : Bool :=
  let thumb := nthLm lm 4
  let index := nthLm lm 8
  decide ((thumb.x - index.x) ^ 2 + (thumb.y - index.y) ^ 2 < (6/100) ^ 2)

/-- The clamped raycast target of `updatePointer` (App.tsx 129-139 /
part_001 181-190): extend the wrist-to-index-tip ray by `factor`,
mirror the horizontal axis, scale to the viewport and clamp. -/
def clampedTarget (factor w h : ℚ) (lm : List Landmark) : Point :=
  let wrist := nthLm lm 0
  let tip := nthLm lm 8
  let dx := tip.x - wrist.x
  let dy := tip.y - wrist.y
  let projX := tip.x + dx * factor
  let projY := tip.y + dy * factor
  ⟨max 0 (min w ((1 - projX) * w)), max 0 (min h (projY * h))⟩

/-- `updatePointer` (App.tsx 123-149): raycast with `factor = 2.5`,
clamp to the viewport, then, when `checkPinch` holds and a previous
pointer exists, interpolate from the previous pointer toward the clamped
target with `PRECISION_SLOWDOWN = 0.25`.  Returns the new pointer
(stored in both `lastPointerRef` and `pointerPosRef`) and the precision
flag. -/
def updatePointer (w h : ℚ) (lm : List Landmark) (last : Option Point) : Point × Bool :=
  let precision := checkPinch lm
  let t := clampedTarget (5/2) w h lm
  match precision, last with
  | true, some p =>
      (⟨p.x + (t.x - p.x) * (1/4), p.y + (t.y - p.y) * (1/4)⟩, true)
  | _, _ => (t, precision)

/-- `checkForceGrip` (part_001 139-172): if the index finger is extended
the pose is not a force grip; otherwise at least three of the four
non-thumb fingers must be partially curled, tip between 0.01 and 0.08
below the pip. -/
def checkForceGrip (lm : List Landmark) : Bool :=
  let indexExtended := decide ((nthLm lm 8).y < (nthLm lm 6).y)
  if indexExtended then false
  else
    let partial1 := fun (tip pip : ℕ) =>
      let diff := (nthLm lm tip).y - (nthLm lm pip).y
      decide (1/100 < diff ∧ diff < 8/100)
    let partialCount :=
      ([partial1 8 6, partial1 12 10, partial1 16 14, partial1 20 18].filter id).length
    decide (3 ≤ partialCount)

/-- `updatePointer` of part_001 (175-200): as in App.tsx but with the
slider-controlled `raycastFactor` and `precisionSlowdown` settings and
with `checkForceGrip` as the precision trigger. -/
def updatePointerP1 (raycastFactor precisionSlowdown w h : ℚ) (lm : List Landmark)
    (last : Option Point) : Point × Bool :=
  let precision := checkForceGrip lm
  let t := clampedTarget raycastFactor w h lm
  match precision, last with
  | true, some p =>
      (⟨p.x + (t.x - p.x) * precisionSlowdown, p.y + (t.y - p.y) * precisionSlowdown⟩, true)
  | _, _ => (t, precision)

/-- Pointer coordinates within the viewport. -/
def inBounds (w h : ℚ) (p : Point) : Prop :=
  0 ≤ p.x ∧ p.x ≤ w ∧ 0 ≤ p.y ∧ p.y ≤ h

/-- A sequence of `updatePointer` calls (App.tsx) threading
`lastPointerRef`, returning the produced pointer positions. -/
def updRun (w h : ℚ) (last : Option Point) : List (List Landmark) → List Point
  | [] => []
  | lm :: rest =>
      let p := (updatePointer w h lm last).1
      p :: updRun w h (some p) rest

/-- `n` repeated `updatePointer` calls on the same landmark frame,
starting from pointer `p`. -/
def updIter (w h : ℚ) (lm : List Landmark) : ℕ → Point → Point
  | 0, p => p
  | n + 1, p => updIter w h lm n (updatePointer w h lm (some p)).1

/-- Squared planar distance between two points. -/
def sqDist (a b : Point) : ℚ :=
  (a.x - b.x) ^ 2 + (a.y - b.y) ^ 2

/-! ### ModeStateMachine: the command-mode block of part_001
`predictWebcam` (385-421) and `updateDisplay` (257-275) -/

/-- One entry of `COMMAND_MODE_ACTIONS` (part_001 124-132). -/
structure CmdAction where
  label : String
  key : Option String
  action : Option String
deriving DecidableEq, Repr

/-- The `COMMAND_MODE_ACTIONS` table of part_001 lines 124-132. -/
def COMMAND_MODE_ACTIONS : List (String × CmdAction) :=
  [("PEACE_SIGN", ⟨"TERMINAL 2", some "Alt+2", none⟩),
   ("THREE_FINGERS", ⟨"TERMINAL 3", some "Alt+3", none⟩),
   ("FOUR_FINGERS", ⟨"TERMINAL 4", some "Alt+4", none⟩),
   ("THUMBS_UP", ⟨"CLICK", none, some "mouse-click"⟩),
   ("CLOSED_FIST", ⟨"ENTER", some "Enter", none⟩),
   ("ROCK_ON", ⟨"VOICE INPUT", some "Win+H", none⟩),
   ("POINTING_UP", ⟨"EXIT COMMAND MODE", none, some "exit-command-mode"⟩)]

/-- The pending-command display string of part_001 line 390. -/
def pendingLabel (c : CmdAction) : String :=
  c.label ++ (match c.key with | some k => " (" ++ k ++ ")" | none => "")

/-- The mutable state of the part_001 frame loop that the command-mode
logic touches: `commandMode`, `frozenPointerRef`, `pendingCommandRef`,
`lastGestureRef`, `currentGestureRef`, `pointerPosRef`, `lastPointerRef`,
`isPrecisionModeRef`. -/
structure P1State where
  commandMode : Bool
  frozenPointer : Option Point
  pendingCommand : Option String
  lastGesture : String
  currentGesture : String
  pointerPos : Option Point
  lastPointer : Option Point
  isPrecisionMode : Bool
deriving DecidableEq, Repr

/-- The hand-selection outcome of part_001 352-380: no hands detected,
hands detected but none with the configured handedness, or the selected
active hand's landmarks. -/
inductive HandInput where
  | noHands
  | noActiveHand
  | active (lm : List Landmark)
deriving DecidableEq, Repr

/-- The COMMAND MODE LOGIC block (part_001 385-414), as a function of
the pre-frame state and the confirmed gesture of the frame. -/
def part1ModeLogic (s : P1State) (gesture : String) : P1State :=
  if s.commandMode then
    match COMMAND_MODE_ACTIONS.lookup gesture with
    | some cmd =>
        let s1 := { s with pendingCommand := some (pendingLabel cmd) }
        if gesture = "POINTING_UP" ∧ gesture ≠ s.lastGesture then
          { s1 with commandMode := false, frozenPointer := none, pendingCommand := none }
        else s1
    | none => { s with pendingCommand := none }
  else
    if gesture = "OPEN_PALM" ∧ gesture ≠ s.lastGesture then
      { s with commandMode := true, frozenPointer := s.pointerPos,
               pendingCommand := some "COMMAND MODE" }
    else
      { s with pendingCommand := none }

/-- One frame of the part_001 `predictWebcam` loop after detection
(lines 340-421), under the idealized reading in which the loop's
`commandMode` tracks the React state across frames (each frame's reads
see the value the previous frame's `setCommandMode` left; within one
frame the closure still reads the value `commandMode` had when the
frame began).  The program does not run this machine: the
`requestAnimationFrame` loop re-invokes the mount-render closure
forever, whose captured `commandMode` is the initial `false` — see
`part1FrameStale` for the frame as actually executed.  The face-absent
and no-active-hand branches (lines 340-348 and 371-377) touch only refs
and are identical in both readings. -/
def part1Frame (raycastFactor precisionSlowdown w h : ℚ) (s : P1State)
    (face : Bool) (hand : HandInput) (gesture : String) : P1State :=
  if face = false then
    { s with currentGesture := "UNKNOWN", pointerPos := none }
  else
    match hand with
    | HandInput.noHands => s
    | HandInput.noActiveHand =>
        { s with pointerPos := none, currentGesture := "UNKNOWN" }
    | HandInput.active lm =>
        let s1 := part1ModeLogic { s with currentGesture := gesture } gesture
        let s2 := { s1 with lastGesture := gesture }
        if s.commandMode = false then
          let (p, prec) := updatePointerP1 raycastFactor precisionSlowdown w h lm s2.lastPointer
          { s2 with pointerPos := some p, lastPointer := some p, isPrecisionMode := prec }
        else s2

/-- One frame of the part_001 `predictWebcam` loop as the program
actually executes it.  `predictWebcam` is re-created on every render,
but `requestAnimationFrame(predictWebcam)` inside the loop resolves to
the mount render's binding, so every frame forever runs the mount
closure: each read of the React state `commandMode` — the branch
selector at line 386 and the pointer guard at line 419 — yields the
mount value `false`.  `setCommandMode(true)` at line 407 still writes
the React state, recorded here in the `commandMode` field, but nothing
in the loop reads it back: the command-mode branch of lines 386-402 is
dead, only the AIM branch (lines 403-414) runs, and the pointer update
at line 420 runs on every active-hand frame. -/
def part1FrameStale (raycastFactor precisionSlowdown w h : ℚ) (s : P1State)
    (face : Bool) (hand : HandInput) (gesture : String) : P1State :=
  if face = false then
    { s with currentGesture := "UNKNOWN", pointerPos := none }
  else
    match hand with
    | HandInput.noHands => s
    | HandInput.noActiveHand =>
        { s with pointerPos := none, currentGesture := "UNKNOWN" }
    | HandInput.active lm =>
        let s1 :=
          if gesture = "OPEN_PALM" ∧ gesture ≠ s.lastGesture then
            { s with currentGesture := gesture, commandMode := true,
                     frozenPointer := s.pointerPos,
                     pendingCommand := some "COMMAND MODE" }
          else
            { s with currentGesture := gesture, pendingCommand := none }
        let s2 := { s1 with lastGesture := gesture }
        let (p, prec) := updatePointerP1 raycastFactor precisionSlowdown w h lm s2.lastPointer
        { s2 with pointerPos := some p, lastPointer := some p, isPrecisionMode := prec }

/-- The pointer `updateDisplay` (part_001 269) publishes, as a function
of the `commandMode` value the invoked closure captured: the frozen
pointer when that value is `true`, the live pointer otherwise.  The
loop always calls the mount-render instance of `updateDisplay`, whose
captured value is `false`. -/
def updateDisplayPointer (capturedCommandMode : Bool) (s : P1State) : Option Point :=
  if capturedCommandMode then s.frozenPointer else s.pointerPos

/-! ### The App.tsx frame loop (`predictWebcam`, 251-326) -/

/-- The mutable state of the App.tsx frame loop relevant to gesture
dispatch and the pointer (panel dragging is omitted: it touches only the
`panels`/`grabbedPanel` display state). -/
structure AppState where
  currentGesture : String
  lastGesture : String
  pointerPos : Option Point
  lastPointer : Option Point
  isPrecisionMode : Bool
  lastActionTime : ℚ
deriving DecidableEq, Repr

/-- One frame of the App.tsx `predictWebcam` loop after detection (lines
284-323), given the face flag, the detected hand landmarks (index 0), the
confirmed gesture, and the `Date.now()` timestamp; returns the new state
and whether an action was dispatched this frame.  When no face is
detected the frame sets the gesture to UNKNOWN and returns early,
leaving the pointer untouched. -/
def appFrame (w h : ℚ) (s : AppState) (face : Bool) (hand : Option (List Landmark))
    (gesture : String) (now : ℚ) : AppState × Bool :=
  if face = false then
    ({ s with currentGesture := "UNKNOWN" }, false)
  else
    match hand with
    | none => (s, false)
    | some lm =>
        let s1 := { s with currentGesture := gesture }
        let (t', disp) :=
          if gesture ≠ s.lastGesture ∧ gesture ≠ "UNKNOWN" then
            executeGestureAction s.lastActionTime gesture now
          else (s.lastActionTime, false)
        let s2 := { s1 with lastActionTime := t', lastGesture := gesture }
        let (p, prec) := updatePointer w h lm s2.lastPointer
        ({ s2 with pointerPos := some p, lastPointer := some p, isPrecisionMode := prec }, disp)

/-- A concrete App.tsx frame-loop state holding a live pointer, used to
exhibit that a face-absent frame does not clear the pointer. -/
def appStateWithPointer : AppState :=
  { currentGesture := "OPEN_PALM", lastGesture := "OPEN_PALM",
    pointerPos := some ⟨3, 4⟩, lastPointer := some ⟨3, 4⟩,
    isPrecisionMode := false, lastActionTime := 0 }

/-- A concrete part_001 state in AIM mode with a live pointer. -/
def p1StateAim : P1State :=
  { commandMode := false, frozenPointer := none, pendingCommand := none,
    lastGesture := "UNKNOWN", currentGesture := "UNKNOWN",
    pointerPos := some ⟨5, 6⟩, lastPointer := some ⟨5, 6⟩, isPrecisionMode := false }

/-- A degenerate 21-landmark pose with every joint at the image center:
thumb tip and index tip coincide, so the pinch test fires. -/
def posePinch : List Landmark :=
  List.replicate 21 ⟨1/2, 1/2, 0⟩

/-! ## Helper lemmas -/

theorem fs_poseUp : getFingerStatesOpt poseUp = some ⟨false, true, false, false, false⟩ := by
  norm_num [getFingerStatesOpt, poseUp, lmGet]

theorem fs_poseDown : getFingerStatesOpt poseDown = some ⟨false, false, false, false, false⟩ := by
  norm_num [getFingerStatesOpt, poseDown, poseUp, rot180, nthLm, lmGet]

theorem recognize_poseUp : recognizeGestureOpt poseUp = some "POINTING_UP" := by
  rw [recognizeGestureOpt, fs_poseUp]; rfl

theorem recognize_poseDown : recognizeGestureOpt poseDown = some "CLOSED_FIST" := by
  rw [recognizeGestureOpt, fs_poseDown]; rfl

theorem recognize_poseMid : recognizeGestureOpt poseMid = some "FINGERS_1" := by
  norm_num [recognizeGestureOpt, getFingerStatesOpt, poseMid, lmGet, classifyFromBools]
  rfl

theorem classify_ne_four (i m r p t : Bool) :
    classifyFromBools i m r p t ≠ "FOUR_FINGERS" := by
  cases i <;> cases m <;> cases r <;> cases p <;> cases t <;>
    simp [classifyFromBools] <;> decide

theorem classify_mem_extended (i m r p t : Bool) :
    classifyFromBools i m r p t ∈ extendedLabels := by
  cases i <;> cases m <;> cases r <;> cases p <;> cases t <;>
    simp [classifyFromBools, extendedLabels, nineLabels] <;> decide

/-! ## Claims -/

/-- C5. An `executeGestureAction` attempt strictly inside the 2000 ms
cooldown window is a no-op that leaves `lastActionTimeRef` unchanged and
dispatches nothing; an attempt for a gesture mapped in `GESTURE_ACTIONS`
made at exactly `lastActionTime + 2000` is accepted and records the new
timestamp. -/
theorem dispatch_cooldown_gate :
    (∀ (lastT : ℚ) (g : String) (now : ℚ), now - lastT < 2000 →
      executeGestureAction lastT g now = (lastT, false))
    ∧ (∀ (lastT : ℚ) (g : String), (GESTURE_ACTIONS.lookup g).isSome = true →
      executeGestureAction lastT g (lastT + 2000) = (lastT + 2000, true)) := by
  constructor
  · intro lastT g now hlt
    simp [executeGestureAction, if_pos hlt]
  · intro lastT g hm
    have hge : ¬ (lastT + 2000 - lastT < 2000) := by norm_num
    obtain ⟨a, ha⟩ := Option.isSome_iff_exists.mp hm
    simp [executeGestureAction, hge, ha]

/-- Witness for C5 at concrete inputs: a second attempt 500 ms after a
dispatch at time 0 is rejected, and an attempt at exactly 2000 ms is
accepted. -/
theorem dispatch_cooldown_gate_witness :
    ((500 : ℚ) - 0 < 2000 ∧ executeGestureAction 0 "PEACE_SIGN" 500 = (0, false))
    ∧ ((GESTURE_ACTIONS.lookup "PEACE_SIGN").isSome = true
       ∧ executeGestureAction 0 "PEACE_SIGN" ((0 : ℚ) + 2000) = ((0 : ℚ) + 2000, true)) :=
  ⟨⟨by norm_num, dispatch_cooldown_gate.1 0 "PEACE_SIGN" 500 (by norm_num)⟩,
   ⟨by rfl, dispatch_cooldown_gate.2 0 "PEACE_SIGN" (by rfl)⟩⟩

/-- C6 (amended). On a face-absent frame both loops set the current
gesture to UNKNOWN and dispatch nothing; the part_001 loop also clears
the pointer, but the App.tsx loop returns early without touching the
pointer, which therefore retains its previous value. -/
theorem face_absent_frame :
    (∀ (w h : ℚ) (s : AppState) (hand : Option (List Landmark)) (g : String) (now : ℚ),
      appFrame w h s false hand g now = ({ s with currentGesture := "UNKNOWN" }, false))
    ∧ (∀ (rf ps w h : ℚ) (s : P1State) (hand : HandInput) (g : String),
      part1Frame rf ps w h s false hand g
        = { s with currentGesture := "UNKNOWN", pointerPos := none }) := by
  exact ⟨fun _ _ _ _ _ _ => rfl, fun _ _ _ _ _ _ _ => rfl⟩

/-- Counterexample for C6 as stated: a face-absent App.tsx frame leaves
a previously set pointer in place instead of clearing it. -/
theorem face_absent_pointer_not_cleared :
    (appFrame 1000 1000 appStateWithPointer false none "UNKNOWN" 0).1.pointerPos = some ⟨3, 4⟩
    ∧ (appFrame 1000 1000 appStateWithPointer false none "UNKNOWN" 0).1.pointerPos ≠ none :=
  ⟨rfl, by simp [appFrame, appStateWithPointer]⟩

/-- C10. `recognizeGesture` can never return FOUR_FINGERS (the
`fingerCount === 4 && !thumbIsOpen` branch is shadowed by the earlier
`fingerCount === 4` OPEN_PALM rule); the FOUR_FINGERS entry does exist
in `GESTURE_ACTIONS`, and the hold debouncer never confirms a label it
was not fed, so the entry can never be triggered by this classifier. -/
theorem four_fingers_unreachable :
    (∀ lm : List Landmark, recognizeGestureOpt lm ≠ some "FOUR_FINGERS")
    ∧ (GESTURE_ACTIONS.lookup "FOUR_FINGERS").isSome = true
    ∧ (∀ (s : DebState) (raw : String) (t : ℚ),
        raw ≠ "FOUR_FINGERS" → s.confirmedGesture ≠ "FOUR_FINGERS" →
        (debStep s raw t).2 ≠ "FOUR_FINGERS"
          ∧ (debStep s raw t).1.confirmedGesture ≠ "FOUR_FINGERS") := by
  refine ⟨?_, by rfl, ?_⟩
  · intro lm h
    rw [recognizeGestureOpt] at h
    obtain ⟨fs, -, hc⟩ := Option.map_eq_some'.mp h
    exact classify_ne_four fs.index fs.middle fs.ring fs.pinky fs.thumb hc
  · intro s raw t hraw hconf
    rw [debStep]
    split
    · exact ⟨hconf, hconf⟩
    · split
      · exact ⟨hraw, hraw⟩
      · exact ⟨hconf, hconf⟩

/-- Witness for C10's debouncer conjunct at a concrete step from the
initial debouncer state. -/
theorem four_fingers_unreachable_witness :
    ("OPEN_PALM" ≠ "FOUR_FINGERS" ∧ debInit.confirmedGesture ≠ "FOUR_FINGERS")
    ∧ ((debStep debInit "OPEN_PALM" 0).2 ≠ "FOUR_FINGERS"
       ∧ (debStep debInit "OPEN_PALM" 0).1.confirmedGesture ≠ "FOUR_FINGERS") :=
  ⟨⟨by decide, by decide⟩,
   four_fingers_unreachable.2.2 debInit "OPEN_PALM" 0 (by decide) (by decide)⟩

/-- C2 (amended). `recognizeGesture` is deterministic (equal landmark
inputs give equal results), and every label it returns lies in the
twelve-label set: the spec's nine plus FINGERS_1, FINGERS_2, FINGERS_3. -/
theorem classifier_deterministic_closed_range :
    (∀ lm1 lm2 : List Landmark, lm1 = lm2 →
      recognizeGestureOpt lm1 = recognizeGestureOpt lm2)
    ∧ (∀ (lm : List Landmark) (s : String),
      recognizeGestureOpt lm = some s → s ∈ extendedLabels) := by
  constructor
  · intro lm1 lm2 h
    rw [h]
  · intro lm s h
    rw [recognizeGestureOpt] at h
    obtain ⟨fs, -, hc⟩ := Option.map_eq_some'.mp h
    rw [← hc]
    exact classify_mem_extended fs.index fs.middle fs.ring fs.pinky fs.thumb

/-- Witness for C2 at a concrete pose. -/
theorem classifier_deterministic_closed_range_witness :
    (poseUp = poseUp ∧ recognizeGestureOpt poseUp = recognizeGestureOpt poseUp)
    ∧ (recognizeGestureOpt poseUp = some "POINTING_UP"
       ∧ "POINTING_UP" ∈ extendedLabels) :=
  ⟨⟨rfl, classifier_deterministic_closed_range.1 poseUp poseUp rfl⟩,
   ⟨recognize_poseUp,
    classifier_deterministic_closed_range.2 poseUp "POINTING_UP" recognize_poseUp⟩⟩

/-- Counterexample for C2 as stated: a pose with only the middle finger
extended is classified FINGERS_1, which is outside the spec's nine-label
enumeration. -/
theorem classifier_label_outside_enumeration :
    recognizeGestureOpt poseMid = some "FINGERS_1" ∧ "FINGERS_1" ∉ nineLabels :=
  ⟨recognize_poseMid, by decide⟩

/-- C1 (amended). The classifier judges each of the four non-thumb
fingers open iff the fingertip's y coordinate is strictly less than the
proximal joint's y coordinate — a vertical-position test, not the
Euclidean-distance test, and hence not invariant under rotation of the
pose about the wrist. -/
theorem finger_open_vertical_test :
    ∀ (lm : List Landmark) (fs : FingerStates), getFingerStatesOpt lm = some fs →
      ((fs.index = true ↔ lmy lm 8 < lmy lm 6)
       ∧ (fs.middle = true ↔ lmy lm 12 < lmy lm 10)
       ∧ (fs.ring = true ↔ lmy lm 16 < lmy lm 14)
       ∧ (fs.pinky = true ↔ lmy lm 20 < lmy lm 18)) := by
  intro lm fs h
  rw [getFingerStatesOpt] at h
  simp only [Option.bind_eq_some] at h
  obtain ⟨l8, h8, l6, h6, l12, h12, l10, h10, l16, h16, l14, h14,
          l20, h20, l18, h18, l0, h0, l4, h4, l3, h3, hfs⟩ := h
  obtain rfl := Option.some_inj.mp hfs
  simp [lmy, nthLm, h8, h6, h12, h10, h16, h14, h20, h18]

/-- Witness for C1's amended characterization at a concrete pose. -/
theorem finger_open_vertical_test_witness :
    getFingerStatesOpt poseUp = some ⟨false, true, false, false, false⟩
    ∧ ((FingerStates.index ⟨false, true, false, false, false⟩ = true ↔ lmy poseUp 8 < lmy poseUp 6)
       ∧ (FingerStates.middle ⟨false, true, false, false, false⟩ = true ↔ lmy poseUp 12 < lmy poseUp 10)
       ∧ (FingerStates.ring ⟨false, true, false, false, false⟩ = true ↔ lmy poseUp 16 < lmy poseUp 14)
       ∧ (FingerStates.pinky ⟨false, true, false, false, false⟩ = true ↔ lmy poseUp 20 < lmy poseUp 18)) :=
  ⟨fs_poseUp, finger_open_vertical_test poseUp ⟨false, true, false, false, false⟩ fs_poseUp⟩

/-- Counterexample for C1 as stated: in the downward pose the index
fingertip is Euclidean-farther from the wrist than its proximal joint,
yet the classifier judges the finger closed; and rotating the upward
pose 180 degrees about its wrist changes the finger judgement (and the
returned label), so the judgement is not rotation-invariant. -/
theorem finger_open_not_euclidean :
    (getFingerStatesOpt poseDown).map FingerStates.index = some false
    ∧ specEuclidOpen (nthLm poseDown 0) (nthLm poseDown 8) (nthLm poseDown 6)
    ∧ getFingerStatesOpt poseUp ≠ getFingerStatesOpt (poseUp.map (rot180 (nthLm poseUp 0)))
    ∧ recognizeGestureOpt poseUp ≠ recognizeGestureOpt (poseUp.map (rot180 (nthLm poseUp 0))) := by
  refine ⟨by rw [fs_poseDown]; rfl, ?_, ?_, ?_⟩
  · norm_num [specEuclidOpen, sqDistLm, poseDown, poseUp, rot180, nthLm, lmGet]
  · rw [fs_poseUp, show poseUp.map (rot180 (nthLm poseUp 0)) = poseDown from rfl, fs_poseDown]
    simp
  · rw [recognize_poseUp, show poseUp.map (rot180 (nthLm poseUp 0)) = poseDown from rfl,
        recognize_poseDown]
    simp

/-- C7 (code evaluation). On any landmark list with fewer than 21
entries — the empty list included — `recognizeGesture` aborts with the
TypeError modelled by `none` instead of returning UNKNOWN; it returns a
label exactly when the pose is well-formed. -/
theorem classifier_throws_on_short_input :
    recognizeGestureOpt [] = none
    ∧ (∀ lm : List Landmark, lm.length < 21 → recognizeGestureOpt lm = none)
    ∧ (∀ lm : List Landmark, 21 ≤ lm.length → (recognizeGestureOpt lm).isSome = true) := by
  refine ⟨rfl, ?_, ?_⟩
  · intro lm hl
    have h20 : lmGet lm 20 = none := by
      rw [lmGet, List.get?_eq_none]
      omega
    rw [recognizeGestureOpt, getFingerStatesOpt]
    cases h8 : lmGet lm 8 <;> cases h6 : lmGet lm 6 <;> cases h12 : lmGet lm 12 <;>
      cases h10 : lmGet lm 10 <;> cases h16 : lmGet lm 16 <;> cases h14 : lmGet lm 14 <;>
      simp [h20]
  · intro lm hl
    have g : ∀ i : ℕ, i < 21 → ∃ a, lmGet lm i = some a := by
      intro i hi
      cases hgi : lmGet lm i with
      | none =>
          rw [lmGet, List.get?_eq_none] at hgi
          omega
      | some a => exact ⟨a, rfl⟩
    obtain ⟨l8, h8⟩ := g 8 (by norm_num)
    obtain ⟨l6, h6⟩ := g 6 (by norm_num)
    obtain ⟨l12, h12⟩ := g 12 (by norm_num)
    obtain ⟨l10, h10⟩ := g 10 (by norm_num)
    obtain ⟨l16, h16⟩ := g 16 (by norm_num)
    obtain ⟨l14, h14⟩ := g 14 (by norm_num)
    obtain ⟨l20, h20⟩ := g 20 (by norm_num)
    obtain ⟨l18, h18⟩ := g 18 (by norm_num)
    obtain ⟨l0, h0⟩ := g 0 (by norm_num)
    obtain ⟨l4, h4⟩ := g 4 (by norm_num)
    obtain ⟨l3, h3⟩ := g 3 (by norm_num)
    simp [recognizeGestureOpt, getFingerStatesOpt, h8, h6, h12, h10, h16, h14, h20, h18,
      h0, h4, h3]

/-- Witness for C7 at concrete inputs: a one-landmark list is rejected
with the modelled exception, and a well-formed 21-landmark pose gets a
label. -/
theorem classifier_throws_on_short_input_witness :
    (([(⟨0, 0, 0⟩ : Landmark)] : List Landmark).length < 21
     ∧ recognizeGestureOpt [(⟨0, 0, 0⟩ : Landmark)] = none)
    ∧ (21 ≤ poseUp.length ∧ (recognizeGestureOpt poseUp).isSome = true) :=
  ⟨⟨by decide, classifier_throws_on_short_input.2.1 [⟨0, 0, 0⟩] (by decide)⟩,
   ⟨by decide, classifier_throws_on_short_input.2.2 poseUp (by decide)⟩⟩

/-! ## Debouncer lemmas -/

theorem debStep_diff (s : DebState) (raw : String) (t : ℚ) (h : raw ≠ s.currentGesture) :
    debStep s raw t
      = ({ s with currentGesture := raw, gestureStartTime := t }, s.confirmedGesture) := by
  rw [debStep, if_pos h]

theorem debStep_hit (s : DebState) (g : String) (t : ℚ) (h : s.currentGesture = g)
    (h2 : 300 ≤ t - s.gestureStartTime) :
    debStep s g t = ({ s with confirmedGesture := g }, g) := by
  rw [debStep, if_neg (by simp [h]), if_pos h2]

theorem debStep_wait (s : DebState) (g : String) (t : ℚ) (h : s.currentGesture = g)
    (h2 : ¬ 300 ≤ t - s.gestureStartTime) :
    debStep s g t = (s, s.confirmedGesture) := by
  rw [debStep, if_neg (by simp [h]), if_neg h2]

theorem countChanges_replicate (n : ℕ) (a : String) :
    countChanges a (List.replicate n a) = 0 := by
  induction n with
  | zero => rfl
  | succ k ih => simp [List.replicate_succ, countChanges, ih]

theorem debRun_cons (s : DebState) (g : String) (t : ℚ) (ts : List ℚ) :
    debRun s g (t :: ts)
      = ((debRun (debStep s g t).1 g ts).1,
         (debStep s g t).2 :: (debRun (debStep s g t).1 g ts).2) := by
  cases hd : debStep s g t with
  | mk s1 o =>
      cases hr : debRun s1 g ts with
      | mk s2 os => simp [debRun, hd, hr]

theorem debRun_allg (g : String) : ∀ (ts : List ℚ) (s : DebState),
    s.currentGesture = g → s.confirmedGesture = g →
    (debRun s g ts).2 = List.replicate ts.length g := by
  intro ts
  induction ts with
  | nil => intro s _ _; rfl
  | cons t rest ih =>
      intro s hcur hconf
      rw [debRun_cons]
      by_cases h2 : 300 ≤ t - s.gestureStartTime
      · rw [debStep_hit s g t hcur h2]
        dsimp only
        rw [List.length_cons, List.replicate_succ,
          ih { s with confirmedGesture := g } hcur rfl]
      · rw [debStep_wait s g t hcur h2]
        dsimp only
        rw [List.length_cons, List.replicate_succ, ih _ hcur hconf, hconf]

theorem debRun_same_changes (g : String) : ∀ (ts : List ℚ) (s : DebState),
    s.currentGesture = g → countChanges s.confirmedGesture (debRun s g ts).2 ≤ 1 := by
  intro ts
  induction ts with
  | nil => intro s _; simp [debRun, countChanges]
  | cons t rest ih =>
      intro s hcur
      rw [debRun_cons]
      by_cases h2 : 300 ≤ t - s.gestureStartTime
      · rw [debStep_hit s g t hcur h2]
        dsimp only
        rw [countChanges, debRun_allg g rest { s with confirmedGesture := g } hcur rfl,
          countChanges_replicate]
        split_ifs <;> norm_num
      · rw [debStep_wait s g t hcur h2]
        dsimp only
        rw [countChanges]
        have h0 : (if s.confirmedGesture ≠ s.confirmedGesture then 1 else 0) = 0 := by simp
        rw [h0, Nat.zero_add]
        exact ih s hcur

theorem debRun_same_confirm_time (g : String) : ∀ (ts : List ℚ) (s : DebState),
    s.currentGesture = g → List.Pairwise (· ≤ ·) ts →
    ∀ (i : ℕ) (o : String), ((debRun s g ts).2).get? i = some o →
      o ≠ s.confirmedGesture →
      ∃ ti, ts.get? i = some ti ∧ s.gestureStartTime + 300 ≤ ti := by
  intro ts
  induction ts with
  | nil => intro s _ _ i o ho _; simp [debRun] at ho
  | cons t rest ih =>
      intro s hcur hpw i o ho hne
      obtain ⟨h1, h2⟩ := List.pairwise_cons.mp hpw
      rw [debRun_cons] at ho
      by_cases hth : 300 ≤ t - s.gestureStartTime
      · rw [debStep_hit s g t hcur hth] at ho
        dsimp only at ho
        cases i with
        | zero =>
            exact ⟨t, rfl, by linarith⟩
        | succ j =>
            rw [List.get?_cons_succ] at ho
            rw [debRun_allg g rest { s with confirmedGesture := g } hcur rfl] at ho
            obtain ⟨hj, -⟩ := List.get?_eq_some.mp ho
            rw [List.length_replicate] at hj
            refine ⟨rest.get ⟨j, hj⟩, ?_, ?_⟩
            · simp [List.get?_eq_get hj]
            · have hmem : rest.get ⟨j, hj⟩ ∈ rest := List.get_mem rest j hj
              have := h1 _ hmem
              linarith
      · rw [debStep_wait s g t hcur hth] at ho
        dsimp only at ho
        cases i with
        | zero =>
            rw [List.get?_cons_zero, Option.some_inj] at ho
            exact absurd ho.symm (by simpa using hne)
        | succ j =>
            rw [List.get?_cons_succ] at ho
            obtain ⟨ti, hti, hge⟩ := ih s hcur h2 j o ho hne
            exact ⟨ti, by simpa using hti, hge⟩

/-- C3. The hold debouncer: (a) on an update whose raw label differs
from the stored one, the previous confirmed label is returned and kept;
(b) over any contiguous run of one identical raw label the confirmed
label changes at most once; (c) with non-decreasing timestamps, an
output differing from the confirmed label at the start of a run can
only occur at a timestamp at least 300 ms after the run's first
timestamp. -/
theorem debouncer_hold_guarantee :
    (∀ (s : DebState) (raw : String) (t : ℚ), raw ≠ s.currentGesture →
      (debStep s raw t).2 = s.confirmedGesture
      ∧ (debStep s raw t).1.confirmedGesture = s.confirmedGesture)
    ∧ (∀ (s : DebState) (g : String) (ts : List ℚ),
      countChanges s.confirmedGesture (debRun s g ts).2 ≤ 1)
    ∧ (∀ (s : DebState) (g : String) (t0 : ℚ) (rest : List ℚ),
      g ≠ s.currentGesture → List.Pairwise (· ≤ ·) (t0 :: rest) →
      ∀ (i : ℕ) (o : String), ((debRun s g (t0 :: rest)).2).get? i = some o →
        o ≠ s.confirmedGesture →
        ∃ ti, (t0 :: rest).get? i = some ti ∧ t0 + 300 ≤ ti) := by
  refine ⟨?_, ?_, ?_⟩
  · intro s raw t h
    rw [debStep_diff s raw t h]
    exact ⟨rfl, rfl⟩
  · intro s g ts
    cases ts with
    | nil => simp [debRun, countChanges]
    | cons t rest =>
        by_cases h : g = s.currentGesture
        · exact debRun_same_changes g (t :: rest) s h.symm
        · rw [debRun_cons, debStep_diff s g t h]
          dsimp only
          rw [countChanges]
          have h0 : (if s.confirmedGesture ≠ s.confirmedGesture then 1 else 0) = 0 := by simp
          rw [h0, Nat.zero_add]
          exact debRun_same_changes g rest
            { s with currentGesture := g, gestureStartTime := t } rfl
  · intro s g t0 rest hg hpw i o ho hne
    obtain ⟨h1, h2⟩ := List.pairwise_cons.mp hpw
    rw [debRun_cons, debStep_diff s g t0 hg] at ho
    dsimp only at ho
    cases i with
    | zero =>
        simp only [List.get?_cons_zero, Option.some_inj] at ho
        exact absurd ho.symm (by simpa using hne)
    | succ j =>
        simp only [List.get?_cons_succ] at ho
        obtain ⟨ti, hti, hge⟩ := debRun_same_confirm_time g rest
          { s with currentGesture := g, gestureStartTime := t0 } rfl h2 j o ho hne
        exact ⟨ti, by simpa using hti, hge⟩

theorem debRun_concrete :
    ((debRun debInit "PEACE_SIGN" [0, 100, 400]).2) = ["UNKNOWN", "UNKNOWN", "PEACE_SIGN"] := by
  norm_num [debRun, debStep, debInit]
  simp +decide

/-- Witness for C3 at a concrete run: the raw label PEACE_SIGN arriving
at times 0, 100, 400 ms from the initial state is confirmed only at the
400 ms update, more than 300 ms after the run started. -/
theorem debouncer_hold_guarantee_witness :
    ("PEACE_SIGN" ≠ debInit.currentGesture
     ∧ (debStep debInit "PEACE_SIGN" 1000).2 = debInit.confirmedGesture
     ∧ (debStep debInit "PEACE_SIGN" 1000).1.confirmedGesture = debInit.confirmedGesture)
    ∧ countChanges debInit.confirmedGesture (debRun debInit "PEACE_SIGN" [0, 100, 400]).2 ≤ 1
    ∧ (List.Pairwise (· ≤ ·) ([0, 100, 400] : List ℚ)
       ∧ ∃ ti, ([0, 100, 400] : List ℚ).get? 2 = some ti ∧ (0 : ℚ) + 300 ≤ ti) :=
  ⟨⟨by decide,
    (debouncer_hold_guarantee.1 debInit "PEACE_SIGN" 1000 (by decide)).1,
    (debouncer_hold_guarantee.1 debInit "PEACE_SIGN" 1000 (by decide)).2⟩,
   debouncer_hold_guarantee.2.1 debInit "PEACE_SIGN" [0, 100, 400],
   ⟨by norm_num,
    debouncer_hold_guarantee.2.2 debInit "PEACE_SIGN" 0 [100, 400] (by decide) (by norm_num)
      2 "PEACE_SIGN" (by rw [debRun_concrete]; rfl) (by decide)⟩⟩

/-! ## Mode state machine: the stale mount-render closure -/

theorem part1FrameStale_active (rf ps w h : ℚ) (s : P1State) (lm : List Landmark)
    (g : String) :
    part1FrameStale rf ps w h s true (HandInput.active lm) g
      = (let s1 :=
           if g = "OPEN_PALM" ∧ g ≠ s.lastGesture then
             { s with currentGesture := g, commandMode := true,
                      frozenPointer := s.pointerPos,
                      pendingCommand := some "COMMAND MODE" }
           else
             { s with currentGesture := g, pendingCommand := none }
         let s2 := { s1 with lastGesture := g }
         let pr := updatePointerP1 rf ps w h lm s2.lastPointer
         { s2 with pointerPos := some pr.1, lastPointer := some pr.1,
                   isPrecisionMode := pr.2 }) := by
  rw [part1FrameStale, if_neg (show ¬ ((true : Bool) = false) by simp)]

/-- C4 (code evaluation).  Because the rAF loop forever runs the
mount-render closure, in which the React `commandMode` state reads as
its initial `false`: an OPEN_PALM rising edge still writes
`commandMode := true` and snapshots the pre-frame pointer into the
frozen-pointer ref; but a POINTING_UP rising edge taken while the
recorded mode is COMMAND neither returns the mode to AIMING nor clears
the snapshot (the command-mode branch is dead code); the live pointer
is recomputed by `updatePointer` on every active-hand frame regardless
of the recorded mode; and the mount `updateDisplay` instance (captured
`commandMode = false`) always publishes the live pointer, never the
frozen snapshot. -/
theorem command_mode_stale_closure :
    (∀ (rf ps w h : ℚ) (s : P1State) (lm : List Landmark) (g : String),
      g = "OPEN_PALM" → g ≠ s.lastGesture →
      (part1FrameStale rf ps w h s true (HandInput.active lm) g).commandMode = true
        ∧ (part1FrameStale rf ps w h s true (HandInput.active lm) g).frozenPointer
            = s.pointerPos)
    ∧ (∀ (rf ps w h : ℚ) (s : P1State) (lm : List Landmark),
      s.commandMode = true → "POINTING_UP" ≠ s.lastGesture →
      (part1FrameStale rf ps w h s true (HandInput.active lm)
          "POINTING_UP").commandMode = true
        ∧ (part1FrameStale rf ps w h s true (HandInput.active lm)
            "POINTING_UP").frozenPointer = s.frozenPointer)
    ∧ (∀ (rf ps w h : ℚ) (s : P1State) (lm : List Landmark) (g : String),
      (part1FrameStale rf ps w h s true (HandInput.active lm) g).pointerPos
          = some (updatePointerP1 rf ps w h lm s.lastPointer).1
        ∧ (part1FrameStale rf ps w h s true (HandInput.active lm) g).lastPointer
          = some (updatePointerP1 rf ps w h lm s.lastPointer).1)
    ∧ (∀ s : P1State, updateDisplayPointer false s = s.pointerPos) := by
  refine ⟨?_, ?_, ?_, fun s => rfl⟩
  · intro rf ps w h s lm g hop hne
    rw [part1FrameStale_active]
    dsimp only
    rw [if_pos ⟨hop, hne⟩]
    exact ⟨rfl, rfl⟩
  · intro rf ps w h s lm hcm hne
    rw [part1FrameStale_active]
    dsimp only
    rw [if_neg (fun hco => absurd hco.1 (by decide))]
    exact ⟨hcm, rfl⟩
  · intro rf ps w h s lm g
    rw [part1FrameStale_active]
    dsimp only
    by_cases he : g = "OPEN_PALM" ∧ g ≠ s.lastGesture
    · rw [if_pos he]
      exact ⟨rfl, rfl⟩
    · rw [if_neg he]
      exact ⟨rfl, rfl⟩

/-- Witness for C4's code evaluation: from the concrete AIM state with
a live pointer, an OPEN_PALM rising edge latches `commandMode` and
snapshots the pointer, yet the following POINTING_UP rising edge leaves
the recorded mode and the snapshot untouched, and the mount
`updateDisplay` instance still publishes the live pointer. -/
theorem command_mode_stale_closure_witness :
    ("OPEN_PALM" = "OPEN_PALM" ∧ "OPEN_PALM" ≠ p1StateAim.lastGesture
     ∧ (part1FrameStale (5/2) (1/4) 100 100 p1StateAim true (HandInput.active poseUp)
          "OPEN_PALM").commandMode = true
     ∧ (part1FrameStale (5/2) (1/4) 100 100 p1StateAim true (HandInput.active poseUp)
          "OPEN_PALM").frozenPointer = p1StateAim.pointerPos)
    ∧ ((part1FrameStale (5/2) (1/4) 100 100 p1StateAim true (HandInput.active poseUp)
          "OPEN_PALM").commandMode = true
       ∧ "POINTING_UP" ≠ (part1FrameStale (5/2) (1/4) 100 100 p1StateAim true
            (HandInput.active poseUp) "OPEN_PALM").lastGesture
       ∧ (part1FrameStale (5/2) (1/4) 100 100
            (part1FrameStale (5/2) (1/4) 100 100 p1StateAim true (HandInput.active poseUp)
              "OPEN_PALM")
            true (HandInput.active poseUp) "POINTING_UP").commandMode = true
       ∧ (part1FrameStale (5/2) (1/4) 100 100
            (part1FrameStale (5/2) (1/4) 100 100 p1StateAim true (HandInput.active poseUp)
              "OPEN_PALM")
            true (HandInput.active poseUp) "POINTING_UP").frozenPointer
          = (part1FrameStale (5/2) (1/4) 100 100 p1StateAim true (HandInput.active poseUp)
              "OPEN_PALM").frozenPointer)
    ∧ updateDisplayPointer false
        (part1FrameStale (5/2) (1/4) 100 100 p1StateAim true (HandInput.active poseUp)
          "OPEN_PALM")
      = (part1FrameStale (5/2) (1/4) 100 100 p1StateAim true (HandInput.active poseUp)
          "OPEN_PALM").pointerPos := by
  have h1 := command_mode_stale_closure.1 (5/2) (1/4) 100 100 p1StateAim poseUp
    "OPEN_PALM" rfl (by decide)
  have h2 := command_mode_stale_closure.2.1 (5/2) (1/4) 100 100
    (part1FrameStale (5/2) (1/4) 100 100 p1StateAim true (HandInput.active poseUp)
      "OPEN_PALM") poseUp h1.1 (by decide)
  exact ⟨⟨rfl, by decide, h1.1, h1.2⟩, ⟨h1.1, by decide, h2.1, h2.2⟩,
         command_mode_stale_closure.2.2.2 _⟩

/-! ## Pointer projector lemmas -/

theorem clampedTarget_inBounds (factor w h : ℚ) (lm : List Landmark)
    (hw : 0 ≤ w) (hh : 0 ≤ h) : inBounds w h (clampedTarget factor w h lm) := by
  unfold inBounds clampedTarget
  refine ⟨le_max_left 0 _, ?_, le_max_left 0 _, ?_⟩
  · exact max_le hw (min_le_left _ _)
  · exact max_le hh (min_le_left _ _)

theorem interp_clamped (a b lo hi c : ℚ) (h1 : lo ≤ a) (h2 : a ≤ hi) (h3 : lo ≤ b)
    (h4 : b ≤ hi) (hc0 : 0 ≤ c) (hc1 : c ≤ 1) :
    lo ≤ a + (b - a) * c ∧ a + (b - a) * c ≤ hi := by
  constructor <;> nlinarith

theorem updatePointer_inBounds (w h : ℚ) (lm : List Landmark) (last : Option Point)
    (hw : 0 ≤ w) (hh : 0 ≤ h) (hlast : ∀ q, last = some q → inBounds w h q) :
    inBounds w h (updatePointer w h lm last).1 := by
  cases last with
  | none =>
      cases hp : checkPinch lm <;> unfold updatePointer <;> rw [hp] <;>
        exact clampedTarget_inBounds (5/2) w h lm hw hh
  | some q =>
      cases hp : checkPinch lm with
      | false =>
          unfold updatePointer
          rw [hp]
          exact clampedTarget_inBounds (5/2) w h lm hw hh
      | true =>
          unfold updatePointer
          rw [hp]
          obtain ⟨hq1, hq2, hq3, hq4⟩ := hlast q rfl
          obtain ⟨ht1, ht2, ht3, ht4⟩ := clampedTarget_inBounds (5/2) w h lm hw hh
          obtain ⟨hx1, hx2⟩ := interp_clamped q.x (clampedTarget (5/2) w h lm).x 0 w (1/4)
            hq1 hq2 ht1 ht2 (by norm_num) (by norm_num)
          obtain ⟨hy1, hy2⟩ := interp_clamped q.y (clampedTarget (5/2) w h lm).y 0 h (1/4)
            hq3 hq4 ht3 ht4 (by norm_num) (by norm_num)
          exact ⟨hx1, hx2, hy1, hy2⟩

theorem updatePointerP1_inBounds (rf ps w h : ℚ) (lm : List Landmark) (last : Option Point)
    (hw : 0 ≤ w) (hh : 0 ≤ h) (hps0 : 0 ≤ ps) (hps1 : ps ≤ 1)
    (hlast : ∀ q, last = some q → inBounds w h q) :
    inBounds w h (updatePointerP1 rf ps w h lm last).1 := by
  cases last with
  | none =>
      cases hp : checkForceGrip lm <;> unfold updatePointerP1 <;> rw [hp] <;>
        exact clampedTarget_inBounds rf w h lm hw hh
  | some q =>
      cases hp : checkForceGrip lm with
      | false =>
          unfold updatePointerP1
          rw [hp]
          exact clampedTarget_inBounds rf w h lm hw hh
      | true =>
          unfold updatePointerP1
          rw [hp]
          obtain ⟨hq1, hq2, hq3, hq4⟩ := hlast q rfl
          obtain ⟨ht1, ht2, ht3, ht4⟩ := clampedTarget_inBounds rf w h lm hw hh
          obtain ⟨hx1, hx2⟩ := interp_clamped q.x (clampedTarget rf w h lm).x 0 w ps
            hq1 hq2 ht1 ht2 hps0 hps1
          obtain ⟨hy1, hy2⟩ := interp_clamped q.y (clampedTarget rf w h lm).y 0 h ps
            hq3 hq4 ht3 ht4 hps0 hps1
          exact ⟨hx1, hx2, hy1, hy2⟩

theorem updRun_inBounds (w h : ℚ) (hw : 0 ≤ w) (hh : 0 ≤ h) :
    ∀ (lms : List (List Landmark)) (last : Option Point),
    (∀ q, last = some q → inBounds w h q) →
    ∀ p ∈ updRun w h last lms, inBounds w h p := by
  intro lms
  induction lms with
  | nil => intro last _ p hp; simp [updRun] at hp
  | cons lm rest ih =>
      intro last hlast p hp
      rw [updRun] at hp
      rcases List.mem_cons.mp hp with rfl | htail
      · exact updatePointer_inBounds w h lm last hw hh hlast
      · exact ih (some (updatePointer w h lm last).1)
          (fun q hq => by
            obtain rfl := Option.some_inj.mp hq
            exact updatePointer_inBounds w h lm last hw hh hlast)
          p htail

/-- C8. Pointer positions stay inside the viewport: every position
produced by a sequence of App.tsx `updatePointer` calls (starting with
no previous pointer) lies in [0,w] x [0,h], the precision-interpolated
positions included; and one part_001 `updatePointer` step preserves the
viewport bounds for any slider slowdown in [0,1]. -/
theorem pointer_in_viewport :
    (∀ (w h : ℚ), 0 ≤ w → 0 ≤ h → ∀ (lms : List (List Landmark)),
      ∀ p ∈ updRun w h none lms, inBounds w h p)
    ∧ (∀ (rf ps w h : ℚ) (lm : List Landmark) (last : Option Point),
      0 ≤ w → 0 ≤ h → 0 ≤ ps → ps ≤ 1 →
      (∀ q, last = some q → inBounds w h q) →
      inBounds w h (updatePointerP1 rf ps w h lm last).1) := by
  constructor
  · intro w h hw hh lms p hp
    exact updRun_inBounds w h hw hh lms none (fun q hq => by cases hq) p hp
  · intro rf ps w h lm last hw hh hps0 hps1 hlast
    exact updatePointerP1_inBounds rf ps w h lm last hw hh hps0 hps1 hlast

/-- Witness for C8 at a concrete run of one frame and one part_001 step. -/
theorem pointer_in_viewport_witness :
    ((0 : ℚ) ≤ 100
     ∧ inBounds 100 100 (updatePointer 100 100 poseUp none).1)
    ∧ ((0 : ℚ) ≤ 1/4 ∧ (1/4 : ℚ) ≤ 1
       ∧ inBounds 100 100 (updatePointerP1 (5/2) (1/4) 100 100 poseUp (some ⟨5, 6⟩)).1) :=
  ⟨⟨by norm_num,
    pointer_in_viewport.1 100 100 (by norm_num) (by norm_num) [poseUp] _
      (List.mem_cons_self _ _)⟩,
   ⟨by norm_num, by norm_num,
    pointer_in_viewport.2 (5/2) (1/4) 100 100 poseUp (some ⟨5, 6⟩) (by norm_num) (by norm_num)
      (by norm_num) (by norm_num)
      (fun q hq => by
        obtain rfl := Option.some_inj.mp hq
        norm_num [inBounds])⟩⟩

theorem updatePointer_pinch_step (w h : ℚ) (lm : List Landmark) (q : Point)
    (hp : checkPinch lm = true) :
    (updatePointer w h lm (some q)).1
      = ⟨q.x + ((clampedTarget (5/2) w h lm).x - q.x) * (1/4),
         q.y + ((clampedTarget (5/2) w h lm).y - q.y) * (1/4)⟩ := by
  unfold updatePointer
  rw [hp]

theorem interp_between (a b : ℚ) :
    min a b ≤ a + (b - a) * (1/4) ∧ a + (b - a) * (1/4) ≤ max a b := by
  rcases le_total a b with hab | hab
  · rw [min_eq_left hab, max_eq_right hab]
    constructor <;> linarith
  · rw [min_eq_right hab, max_eq_left hab]
    constructor <;> linarith

/-- C9. Precision interpolation toward a fixed raycast target: with the
pinch detected, each App.tsx `updatePointer` call moves the pointer by
exactly the fraction `PRECISION_SLOWDOWN = 0.25` of the remaining gap on
each axis, shrinking the gap to 3/4 of its value; the new position never
passes beyond the target on either axis; the squared distance to the
target scales by 9/16 per step — strictly decreasing whenever it is
nonzero — and after `n` consecutive steps it is (9/16)^n times the
initial squared distance. -/
theorem precision_interpolation_monotone (w h : ℚ) (lm : List Landmark) (p : Point) (n : ℕ)
    (hp : checkPinch lm = true) :
    ((updatePointer w h lm (some p)).1.x
        = p.x + ((clampedTarget (5/2) w h lm).x - p.x) * (1/4)
     ∧ (updatePointer w h lm (some p)).1.y
        = p.y + ((clampedTarget (5/2) w h lm).y - p.y) * (1/4))
    ∧ ((clampedTarget (5/2) w h lm).x - (updatePointer w h lm (some p)).1.x
        = (3/4) * ((clampedTarget (5/2) w h lm).x - p.x)
       ∧ (clampedTarget (5/2) w h lm).y - (updatePointer w h lm (some p)).1.y
        = (3/4) * ((clampedTarget (5/2) w h lm).y - p.y))
    ∧ (min p.x (clampedTarget (5/2) w h lm).x ≤ (updatePointer w h lm (some p)).1.x
       ∧ (updatePointer w h lm (some p)).1.x ≤ max p.x (clampedTarget (5/2) w h lm).x
       ∧ min p.y (clampedTarget (5/2) w h lm).y ≤ (updatePointer w h lm (some p)).1.y
       ∧ (updatePointer w h lm (some p)).1.y ≤ max p.y (clampedTarget (5/2) w h lm).y)
    ∧ sqDist (clampedTarget (5/2) w h lm) (updatePointer w h lm (some p)).1
        = (9/16) * sqDist (clampedTarget (5/2) w h lm) p
    ∧ (0 < sqDist (clampedTarget (5/2) w h lm) p →
       sqDist (clampedTarget (5/2) w h lm) (updatePointer w h lm (some p)).1
         < sqDist (clampedTarget (5/2) w h lm) p)
    ∧ sqDist (clampedTarget (5/2) w h lm) (updIter w h lm n p)
        = (9/16) ^ n * sqDist (clampedTarget (5/2) w h lm) p := by
  have hsq : ∀ q : Point,
      sqDist (clampedTarget (5/2) w h lm) (updatePointer w h lm (some q)).1
        = (9/16) * sqDist (clampedTarget (5/2) w h lm) q := by
    intro q
    rw [updatePointer_pinch_step w h lm q hp]
    unfold sqDist
    dsimp only
    ring
  have hiter : ∀ (m : ℕ) (q : Point),
      sqDist (clampedTarget (5/2) w h lm) (updIter w h lm m q)
        = (9/16) ^ m * sqDist (clampedTarget (5/2) w h lm) q := by
    intro m
    induction m with
    | zero => intro q; simp [updIter]
    | succ k ihk =>
        intro q
        rw [updIter, ihk, hsq q, pow_succ]
        ring
  refine ⟨?_, ?_, ?_, hsq p, ?_, hiter n p⟩
  · rw [updatePointer_pinch_step w h lm p hp]
    exact ⟨rfl, rfl⟩
  · rw [updatePointer_pinch_step w h lm p hp]
    constructor <;> (dsimp only; ring)
  · rw [updatePointer_pinch_step w h lm p hp]
    exact ⟨(interp_between p.x _).1, (interp_between p.x _).2,
           (interp_between p.y _).1, (interp_between p.y _).2⟩
  · intro hpos
    rw [hsq p]
    linarith

/-- Witness for C9 at a concrete pinching pose: two precision steps from
the origin multiply the squared distance to the target by (9/16)^2. -/
theorem precision_interpolation_monotone_witness :
    checkPinch posePinch = true
    ∧ sqDist (clampedTarget (5/2) 100 100 posePinch) (updIter 100 100 posePinch 2 ⟨0, 0⟩)
        = (9/16) ^ 2 * sqDist (clampedTarget (5/2) 100 100 posePinch) ⟨0, 0⟩ :=
  ⟨by norm_num [checkPinch, posePinch, nthLm, lmGet],
   (precision_interpolation_monotone 100 100 posePinch ⟨0, 0⟩ 2
      (by norm_num [checkPinch, posePinch, nthLm, lmGet])).2.2.2.2.2⟩
